import Mathlib

/-!
Shallow embedding of the AI-search reconciliation pipeline of
src/src/restaurant/restaurant.controller.ts.

The embedding covers the two search entry points:

* aiSearch (POST /restaurants/search-ai, lines 49-101): the catalog
  projection into flat records, the match-key construction from the engine
  response, and the filter/reshape of the catalog.  The engine itself is
  external, so the model takes the engine response as a parameter; the
  plainToInstance DTO mapping is shape-preserving and is treated as the
  identity on the modelled fields.

* aiImageSearch (POST /restaurants/search-ai/image, lines 103-174): the
  same reconciliation, wrapped in the missing-file guard, the transient
  upload staging, and the try/finally cleanup.  Side effects (persistence
  read, file write, engine invocation, file removal) are modelled as an
  explicit event trace together with an explicit file-system state, and the
  engine call is a parameter covering both a returned response and a raised
  error.  Only the fields of the restaurant entity that the controller
  logic reads (id, name, dishes) are modelled; the object spread keeps the
  remaining fields untouched.

JavaScript-specific behaviour is modelled faithfully: parseInt performs a
leading-integer parse (whitespace skip, optional sign, optional 0x prefix,
longest digit prefix, NaN when no digit is found, modelled as Option), the
dish keys are hyphen-joined template-literal strings, and the logical-or
defaults treat the empty string and zero as falsy.
-/

namespace HackathonBack

/-- A dish as the controller reads it: a name and a price.  The price is a
JS number used only pass-through, modelled as an integer. -/
structure Dish where
  name : String
  price : Int
  deriving DecidableEq, Repr

/-- A restaurant as the controller reads it from the persistence layer:
numeric id, name, and the ordered list of its dishes. -/
structure Restaurant where
  id : Int
  name : String
  dishes : List Dish
  deriving DecidableEq, Repr

/-- One flat record of the catalog projection (lines 60-67 and 118-125). -/
structure FlatSearchRecord where
  restaurant_id : String
  restaurant_name : String
  dish_name : String
  dish_price : Int
  deriving DecidableEq, Repr

/-- One match entry of the engine response: restaurant identity as text and
a dish name. -/
structure MatchEntry where
  restaurant_id : String
  dish_name : String
  deriving DecidableEq, Repr

/-- The data part of the engine response. -/
structure AiData where
  results : List MatchEntry
  deriving DecidableEq, Repr

/-- The engine response: a status string and optional data (a missing or
null data field is modelled as none). -/
structure AiResponse where
  status : String
  data : Option AiData
  deriving DecidableEq, Repr

/-- JS rendering of the numeric restaurant id as text: r.id.toString() and
the template literal both render an integer in decimal with a leading minus
sign for negatives, exactly as Int.toString does. -/
def renderId (i : Int) : String :=
  toString i

/-- Catalog projector (lines 60-67, identical at 118-125):
restaurants.flatMap of one record per dish. -/
def dishList (restaurants : List Restaurant) : List FlatSearchRecord :=
  restaurants.flatMap fun r =>
    r.dishes.map fun d =>
      { restaurant_id := renderId r.id
        restaurant_name := r.name
        dish_name := d.name
        dish_price := d.price }

/-- Whitespace characters skipped by JS parseInt. -/
def jsWhitespace (c : Char) : Bool :=
  c = ' ' || c = '\t' || c = '\n' || c = '\r' || c = Char.ofNat 11 || c = Char.ofNat 12

/-- Value of a character as a digit in the given radix, none when the
character is not a digit of that radix. -/
def digitVal (radix : Nat) (c : Char) : Option Nat :=
  let v : Option Nat :=
    if '0' ≤ c ∧ c ≤ '9' then some (c.toNat - 48)
    else if 'a' ≤ c ∧ c ≤ 'z' then some (c.toNat - 97 + 10)
    else if 'A' ≤ c ∧ c ≤ 'Z' then some (c.toNat - 65 + 10)
    else none
  match v with
  | some n => if n < radix then some n else none
  | none => none

/-- Longest digit prefix of cs in the given radix, accumulated into acc;
none when no digit at all was consumed (seen records whether one was). -/
def takeDigits (radix : Nat) : List Char → Nat → Bool → Option Nat
  | [], acc, seen => if seen then some acc else none
  | c :: rest, acc, seen =>
    match digitVal radix c with
    | some v => takeDigits radix rest (acc * radix + v) true
    | none => if seen then some acc else none

/-- JS parseInt with the radix argument omitted: skip leading whitespace,
optional sign, optional 0x or 0X prefix switching to radix 16, then the
longest digit prefix; NaN (modelled as none) when no digit is found.  The
controller compares the parsed values only against actual integer ids, and
NaN compares unequal to every number, so dropping NaN is faithful. -/
def jsParseInt (s : String) : Option Int :=
  let cs := s.toList.dropWhile jsWhitespace
  let signed : Int × List Char :=
    match cs with
    | '-' :: rest => (-1, rest)
    | '+' :: rest => (1, rest)
    | _ => (1, cs)
  let based : Nat × List Char :=
    match signed.2 with
    | '0' :: 'x' :: rest => (16, rest)
    | '0' :: 'X' :: rest => (16, rest)
    | _ => (10, signed.2)
  match takeDigits based.1 based.2 0 false with
  | some n => some (signed.1 * (n : Int))
  | none => none

/-- The matched restaurant id set (lines 79-81): parseInt of each match
restaurant_id; NaN entries never equal an integer id and are dropped. -/
def matchedRestaurantIds (results : List MatchEntry) : List Int :=
  results.filterMap fun m => jsParseInt m.restaurant_id

/-- The hyphen-joined composite key of a match entry (line 84). -/
def matchKey (m : MatchEntry) : String :=
  m.restaurant_id ++ "-" ++ m.dish_name

/-- The matched dish key set (lines 83-85). -/
def matchedDishKeys (results : List MatchEntry) : List String :=
  results.map matchKey

/-- The hyphen-joined composite key of a catalog dish (line 91): the
template literal renders the numeric id as text. -/
def dishKey (rid : Int) (d : Dish) : String :=
  renderId rid ++ "-" ++ d.name

/-- The filter/reshape step (lines 87-98): keep restaurants whose id is in
the parsed id set, and inside each kept restaurant keep the dishes whose
composite key is in the match key set. -/
def reconcile (restaurants : List Restaurant) (results : List MatchEntry) : List Restaurant :=
  (restaurants.filter fun r => (matchedRestaurantIds results).contains r.id).map fun r =>
    { r with dishes := r.dishes.filter fun d => (matchedDishKeys results).contains (dishKey r.id d) }

/-- The text search outcome given the engine response (lines 72-100): a
non-success status or missing data yields the empty list, otherwise the
reconciliation of the catalog against the match list. -/
def aiSearch (restaurants : List Restaurant) (resp : AiResponse) : List Restaurant :=
  match resp.data with
  | none => []
  | some d => if resp.status = "success" then reconcile restaurants d.results else []

/-- The uploaded multipart file: original name and raw bytes. -/
structure UploadedFile where
  originalname : String
  buffer : List Nat
  deriving DecidableEq, Repr

/-- The image search request body: optional text, preferences and limit. -/
structure ImageSearchDto where
  text : Option String
  preferences : Option String
  limit : Option Int
  deriving DecidableEq, Repr

/-- JS logical-or default for an optional string field: undefined and the
empty string are falsy. -/
def jsOrString (v : Option String) (dflt : String) : String :=
  match v with
  | none => dflt
  | some s => if s = "" then dflt else s

/-- JS logical-or default for an optional numeric field: undefined and zero
are falsy. -/
def jsOrInt (v : Option Int) (dflt : Int) : Int :=
  match v with
  | none => dflt
  | some n => if n = 0 then dflt else n

/-- The observable side effects of one image search request, in order. -/
inductive Event where
  | persistenceRead
  | fileWrite (path : String)
  | engineCall (records : List FlatSearchRecord) (query : String)
      (imagePath : String) (preferences : String) (limit : Int)
  | fileRemove (path : String)
  deriving DecidableEq, Repr

/-- The errors an image search request can surface to the caller. -/
inductive SearchError where
  | badRequest (message : String)
  | engineFailure (message : String)
  | cleanupFailure (path : String)
  deriving DecidableEq, Repr

/-- The derived transient path (line 130): temp_ then Date.now() then _
then the original filename. -/
def tempPathFor (now : Nat) (f : UploadedFile) : String :=
  "temp_" ++ toString now ++ "_" ++ f.originalname

/-- The outcome the try block determines before cleanup runs: an error
raised by the engine invocation propagates unchanged, a returned response
is reconciled exactly as in the text path (lines 134-167). -/
def primaryOutcome (restaurants : List Restaurant)
    (engineResult : Except String AiResponse) : Except SearchError (List Restaurant) :=
  match engineResult with
  | .error e => .error (.engineFailure e)
  | .ok resp => .ok (aiSearch restaurants resp)

/-- The result of one modelled image search request: what the caller
receives, the event trace, and the final file-system state. -/
structure ImageSearchRun where
  outcome : Except SearchError (List Restaurant)
  events : List Event
  finalFs : List String
  deriving Repr

/-- The staged part of the image search, entered once the missing-file
guard has passed (lines 114-173): persistence read and projection, the
transient write, the engine call, and the finally cleanup. -/
def aiImageSearchStaged (f : UploadedFile) (body : ImageSearchDto)
    (restaurants : List Restaurant) (now : Nat)
    (engineResult : Except String AiResponse)
    (engineFs : List String → List String)
    (unlinkOk : Bool) (fs0 : List String) : ImageSearchRun :=
  let tempPath := tempPathFor now f
  let fs1 := tempPath :: fs0
  let events : List Event :=
    [Event.persistenceRead, Event.fileWrite tempPath,
     Event.engineCall (dishList restaurants) (jsOrString body.text "")
       tempPath (jsOrString body.preferences "") (jsOrInt body.limit 10)]
  let fs2 := engineFs fs1
  let primary := primaryOutcome restaurants engineResult
  if fs2.contains tempPath then
    if unlinkOk then
      { outcome := primary
        events := events ++ [Event.fileRemove tempPath]
        finalFs := fs2.filter fun p => p != tempPath }
    else
      { outcome := .error (.cleanupFailure tempPath)
        events := events
        finalFs := fs2 }
  else
    { outcome := primary, events := events, finalFs := fs2 }

/-- The image search entry point (lines 106-174).  Parameters beyond the
request: the catalog the persistence read returns, the Date.now() value,
the engine behaviour (response or raised error, plus its arbitrary effect
on the file system, since the engine may consume the staged file), whether
the unlink call succeeds, and the initial file-system state as the set of
existing paths.  The missing-file guard precedes every side effect; the
write precedes the engine call; the finally block removes the staged file
when it still exists, and a failing unlink inside finally replaces the
outcome of the try block. -/
def aiImageSearch (file : Option UploadedFile) (body : ImageSearchDto)
    (restaurants : List Restaurant) (now : Nat)
    (engineResult : Except String AiResponse)
    (engineFs : List String → List String)
    (unlinkOk : Bool) (fs0 : List String) : ImageSearchRun :=
  match file with
  | none => { outcome := .error (.badRequest "Image file is required"), events := [], finalFs := fs0 }
  | some f => aiImageSearchStaged f body restaurants now engineResult engineFs unlinkOk fs0

/-- Modelled from the spec wording for the refinement comparison of C2:
the restaurant identity set of a response is the set of restaurant
identities (text) appearing in its matches. -/
def specRestaurantIdentitySet (results : List MatchEntry) : List String :=
  results.map fun m => m.restaurant_id

/-- The two-restaurant example catalog of the spec scenario: Restaurant A
with Soup and Salad, Restaurant B with a same-named Soup. -/
def exCat : List Restaurant :=
  [{ id := 1, name := "A", dishes := [{ name := "Soup", price := 5 }, { name := "Salad", price := 4 }] },
   { id := 2, name := "B", dishes := [{ name := "Soup", price := 6 }] }]

/-- The match list of the spec scenario: one match naming restaurant 1 and
dish Soup. -/
def exResults : List MatchEntry :=
  [{ restaurant_id := "1", dish_name := "Soup" }]

/-- The engine response of the spec scenario. -/
def exResp : AiResponse :=
  { status := "success", data := some { results := exResults } }

/-- A catalog whose only restaurant owns a dish with a hyphen in its name,
exposing the non-injective hyphen join. -/
def colCat : List Restaurant :=
  [{ id := 1, name := "A", dishes := [{ name := "2-Soup", price := 5 }] }]

/-- A match list whose identity text contains a hyphen. -/
def colResults : List MatchEntry :=
  [{ restaurant_id := "1-2", dish_name := "Soup" }]

/-- The engine response built from the hyphenated match list. -/
def colResp : AiResponse :=
  { status := "success", data := some { results := colResults } }

/-- A one-restaurant catalog used by the zero-padding counterexamples. -/
def padCat : List Restaurant :=
  [{ id := 1, name := "A", dishes := [{ name := "Soup", price := 5 }] }]

/-- A match list whose identity text is zero padded. -/
def padResults : List MatchEntry :=
  [{ restaurant_id := "01", dish_name := "Nope" }]

/-- The engine response built from the zero-padded match list. -/
def padResp : AiResponse :=
  { status := "success", data := some { results := padResults } }

/-- A well-formed success response carrying data with no matches. -/
def emptyResp : AiResponse :=
  { status := "success", data := some { results := [] } }

/-- A well-formed non-success response. -/
def errResp : AiResponse :=
  { status := "error", data := some { results := [] } }

/-- A concrete uploaded file. -/
def exFile : UploadedFile :=
  { originalname := "a.png", buffer := [7, 7, 7] }

/-- A concrete image search body with every optional field absent. -/
def exBody : ImageSearchDto :=
  { text := none, preferences := none, limit := none }

/-- The projection of a restaurant to the fields the reconciliation never
changes, used to state order preservation. -/
def restaurantHeader (r : Restaurant) : Int × String :=
  (r.id, r.name)

theorem mem_matchedRestaurantIds {results : List MatchEntry} {i : Int} :
    i ∈ matchedRestaurantIds results ↔ ∃ m ∈ results, jsParseInt m.restaurant_id = some i := by
  simp [matchedRestaurantIds]

theorem mem_matchedDishKeys {results : List MatchEntry} {k : String} :
    k ∈ matchedDishKeys results ↔ ∃ m ∈ results, matchKey m = k := by
  simp [matchedDishKeys]

theorem mem_reconcile_iff {restaurants : List Restaurant} {results : List MatchEntry}
    {r2 : Restaurant} :
    r2 ∈ reconcile restaurants results ↔
      ∃ r, r ∈ restaurants ∧ (matchedRestaurantIds results).contains r.id = true ∧
        r2 = { r with
          dishes := r.dishes.filter fun d =>
            (matchedDishKeys results).contains (dishKey r.id d) } := by
  constructor
  · intro h
    rcases List.mem_map.mp h with ⟨r, hr, hEq⟩
    rcases List.mem_filter.mp hr with ⟨hmem, hkeep⟩
    exact ⟨r, hmem, hkeep, hEq.symm⟩
  · rintro ⟨r, hmem, hkeep, rfl⟩
    exact List.mem_map.mpr ⟨r, List.mem_filter.mpr ⟨hmem, hkeep⟩, rfl⟩

theorem mem_aiSearch {restaurants : List Restaurant} {resp : AiResponse} {r2 : Restaurant} :
    r2 ∈ aiSearch restaurants resp ↔
      ∃ dat, resp.data = some dat ∧ resp.status = "success" ∧
        r2 ∈ reconcile restaurants dat.results := by
  unfold aiSearch
  cases hd : resp.data with
  | none => simp
  | some dat =>
    by_cases hs : resp.status = "success" <;> simp [hs]

theorem aiImageSearch_outcome_of_unlinkOk (f : UploadedFile) (body : ImageSearchDto)
    (restaurants : List Restaurant) (now : Nat)
    (engineResult : Except String AiResponse)
    (engineFs : List String → List String) (fs0 : List String) :
    (aiImageSearch (some f) body restaurants now engineResult engineFs true fs0).outcome =
      primaryOutcome restaurants engineResult := by
  show (aiImageSearchStaged f body restaurants now engineResult engineFs true fs0).outcome =
    primaryOutcome restaurants engineResult
  unfold aiImageSearchStaged
  dsimp only
  split <;> rfl

theorem contains_congr_of_perm {α : Type} [BEq α] [LawfulBEq α] {l1 l2 : List α}
    (hp : List.Perm l1 l2) (a : α) : l1.contains a = l2.contains a := by
  show List.elem a l1 = List.elem a l2
  by_cases h : a ∈ l1
  · rw [List.elem_iff.mpr h, List.elem_iff.mpr (hp.mem_iff.mp h)]
  · have h2 : ¬ a ∈ l2 := fun hx => h (hp.mem_iff.mpr hx)
    cases hc : List.elem a l1 with
    | false =>
      cases hc2 : List.elem a l2 with
      | false => rfl
      | true => exact absurd (List.elem_iff.mp hc2) h2
    | true => exact absurd (List.elem_iff.mp hc) h

theorem contains_filter_ne_self (l : List String) (a : String) :
    (l.filter fun p => p != a).contains a = false := by
  by_contra h
  rw [Bool.not_eq_false] at h
  have hmem := List.elem_iff.mp h
  have h2 := (List.mem_filter.mp hmem).2
  simp at h2

/-- C3: for every catalog the Catalog Projector produces exactly one flat
record per dish: the record count equals the sum of the dish counts over
the restaurants (a restaurant without dishes contributing none), every
record comes from a dish of a catalog restaurant and carries that
restaurant id rendered as text together with the dish price unmodified,
and conversely every dish of every restaurant contributes its record. -/
theorem c3_projector_one_record_per_dish (restaurants : List Restaurant) :
    (dishList restaurants).length = (restaurants.map fun r => r.dishes.length).sum ∧
    (∀ rec ∈ dishList restaurants, ∃ r ∈ restaurants, ∃ d ∈ r.dishes,
      rec.restaurant_id = renderId r.id ∧ rec.restaurant_name = r.name ∧
      rec.dish_name = d.name ∧ rec.dish_price = d.price) ∧
    (∀ r ∈ restaurants, ∀ d ∈ r.dishes,
      ({ restaurant_id := renderId r.id, restaurant_name := r.name,
         dish_name := d.name, dish_price := d.price } : FlatSearchRecord) ∈
        dishList restaurants) := by
  refine ⟨?_, ?_, ?_⟩
  · simp [dishList, List.flatMap_def, Function.comp_def]
  · intro rec hrec
    rcases List.mem_flatMap.mp hrec with ⟨r, hr, hrec2⟩
    rcases List.mem_map.mp hrec2 with ⟨d, hd, rfl⟩
    exact ⟨r, hr, d, hd, rfl, rfl, rfl, rfl⟩
  · intro r hr d hd
    exact List.mem_flatMap.mpr ⟨r, hr, List.mem_map.mpr ⟨d, hd, rfl⟩⟩

/-- C3 witness: in the two-restaurant example catalog, the Soup dish of
restaurant 1 contributes its flat record. -/
theorem c3_witness :
    ({ restaurant_id := renderId 1, restaurant_name := "A",
       dish_name := "Soup", dish_price := 5 } : FlatSearchRecord) ∈ dishList exCat :=
  (c3_projector_one_record_per_dish exCat).2.2
    { id := 1, name := "A",
      dishes := [{ name := "Soup", price := 5 }, { name := "Salad", price := 4 }] }
    (by decide) { name := "Soup", price := 5 } (by decide)

/-- C1 counterexample: the hyphen join of identity and dish name is not
injective, so with catalog restaurant 1 owning the dish named 2-Soup and a
match naming identity 1-2 with dish Soup, the dish 2-Soup of restaurant 1
is included although the pair (identity of restaurant 1, 2-Soup) appears
nowhere in the match list. -/
theorem c1_counterexample :
    aiSearch colCat colResp =
      [{ id := 1, name := "A", dishes := [{ name := "2-Soup", price := 5 }] }] ∧
    ¬ ∃ m ∈ colResults, m.restaurant_id = renderId 1 ∧ m.dish_name = "2-Soup" :=
  ⟨by decide, by decide⟩

/-- C1 amended: a dish of a restaurant appears in the reconciled output
only if its hyphen-joined composite key equals the hyphen-joined composite
key of some match in the engine response (the join is not injective, so
this is weaker than the pair itself appearing as a match); on the spec
scenario the output is still exactly Restaurant A with the single Soup
dish, Restaurant B excluded despite its same-named dish. -/
theorem c1_amended_composite_key_match :
    (∀ restaurants resp r2 d, r2 ∈ aiSearch restaurants resp → d ∈ r2.dishes →
      ∃ dat, resp.data = some dat ∧
        ∃ m ∈ dat.results, matchKey m = dishKey r2.id d) ∧
    aiSearch exCat exResp =
      [{ id := 1, name := "A", dishes := [{ name := "Soup", price := 5 }] }] := by
  constructor
  · intro restaurants resp r2 d hr2 hd
    rcases mem_aiSearch.mp hr2 with ⟨dat, hdat, hs, hrec⟩
    rcases mem_reconcile_iff.mp hrec with ⟨r, hmem, hkeep, rfl⟩
    have hd2 := List.mem_filter.mp hd
    have hkey := List.elem_iff.mp hd2.2
    rcases mem_matchedDishKeys.mp hkey with ⟨m, hm, hkeyEq⟩
    exact ⟨dat, hdat, m, hm, hkeyEq⟩
  · decide

/-- C1 witness: the Soup dish of restaurant 1 in the spec scenario output
has its composite key among the match keys. -/
theorem c1_witness :
    ∃ dat, exResp.data = some dat ∧ ∃ m ∈ dat.results,
      matchKey m = dishKey 1 { name := "Soup", price := 5 } :=
  c1_amended_composite_key_match.1 exCat exResp
    { id := 1, name := "A", dishes := [{ name := "Soup", price := 5 }] }
    { name := "Soup", price := 5 } (by decide) (by decide)

/-- C2 counterexample: the code keeps a restaurant whenever the JS
parseInt of some match identity text equals its numeric id, so the
zero-padded identity text 01 keeps restaurant 1 although the rendered
identity 1 is not in the response identity set. -/
theorem c2_counterexample :
    aiSearch padCat padResp = [{ id := 1, name := "A", dishes := [] }] ∧
    ¬ renderId 1 ∈ specRestaurantIdentitySet padResults :=
  ⟨by decide, by decide⟩

/-- C2 amended: every restaurant in the reconciled output has its numeric
id equal to the leading-integer parse of some match identity text of the
response, and every dish in the output has its hyphen-joined composite key
among the hyphen-joined match keys; nothing outside those derived sets
appears in the output of either operation. -/
theorem c2_amended_match_set_membership :
    ∀ restaurants resp r2, r2 ∈ aiSearch restaurants resp →
      ∃ dat, resp.data = some dat ∧
        (∃ m ∈ dat.results, jsParseInt m.restaurant_id = some r2.id) ∧
        ∀ d ∈ r2.dishes, ∃ m ∈ dat.results, matchKey m = dishKey r2.id d := by
  intro restaurants resp r2 hr2
  rcases mem_aiSearch.mp hr2 with ⟨dat, hdat, hs, hrec⟩
  rcases mem_reconcile_iff.mp hrec with ⟨r, hmem, hkeep, rfl⟩
  refine ⟨dat, hdat, ?_, ?_⟩
  · exact mem_matchedRestaurantIds.mp (List.elem_iff.mp hkeep)
  · intro d hd
    have hd2 := List.mem_filter.mp hd
    exact mem_matchedDishKeys.mp (List.elem_iff.mp hd2.2)

/-- C2 witness: restaurant 1 of the spec scenario output has its id as the
parse of the match identity and its Soup key among the match keys. -/
theorem c2_witness :
    ∃ dat, exResp.data = some dat ∧
      (∃ m ∈ dat.results, jsParseInt m.restaurant_id = some 1) ∧
      ∀ d ∈ ([{ name := "Soup", price := 5 }] : List Dish),
        ∃ m ∈ dat.results, matchKey m = dishKey 1 d :=
  c2_amended_match_set_membership exCat exResp
    { id := 1, name := "A", dishes := [{ name := "Soup", price := 5 }] } (by decide)

/-- C4 counterexample: emptiness of the output is not unique to a
non-success or data-less response: a well-formed success response carrying
data with an empty match list also produces the empty result. -/
theorem c4_counterexample :
    aiSearch padCat emptyResp = [] ∧ emptyResp.status = "success" ∧ emptyResp.data ≠ none :=
  ⟨by decide, rfl, by decide⟩

/-- C4 amended: for every engine response whose status is not success or
that carries no data, both search operations return the empty result list
and not an error (the image path delivering it once the cleanup unlink
itself succeeds); an empty result does not conversely single out that
condition, as a success response with an empty match list shows. -/
theorem c4_amended_empty_on_no_match (restaurants : List Restaurant) (resp : AiResponse)
    (h : resp.status ≠ "success" ∨ resp.data = none) :
    aiSearch restaurants resp = [] ∧
    ∀ f body now engineFs fs0,
      (aiImageSearch (some f) body restaurants now (Except.ok resp) engineFs true fs0).outcome =
        Except.ok [] := by
  have hempty : aiSearch restaurants resp = [] := by
    unfold aiSearch
    cases hd : resp.data with
    | none => rfl
    | some dat =>
      rcases h with h | h
      · simp [h]
      · rw [hd] at h
        cases h
  refine ⟨hempty, ?_⟩
  intro f body now engineFs fs0
  rw [aiImageSearch_outcome_of_unlinkOk]
  simp [primaryOutcome, hempty]

/-- C4 witness: a non-success response is absorbed into the empty image
search result. -/
theorem c4_witness :
    (aiImageSearch (some exFile) exBody padCat 0 (Except.ok errResp) id true []).outcome =
      Except.ok [] :=
  (c4_amended_empty_on_no_match padCat errResp (Or.inl (by decide))).2 exFile exBody 0 id []

/-- C5: an image search without an image payload fails with the client
input error and produces no side effect at all: the event trace is empty,
so no persistence read, no file staging and no engine invocation occurred,
and the file system is untouched. -/
theorem c5_missing_image_rejected (body : ImageSearchDto) (restaurants : List Restaurant)
    (now : Nat) (engineResult : Except String AiResponse)
    (engineFs : List String → List String) (unlinkOk : Bool) (fs0 : List String) :
    (aiImageSearch none body restaurants now engineResult engineFs unlinkOk fs0).outcome =
        Except.error (SearchError.badRequest "Image file is required") ∧
    (aiImageSearch none body restaurants now engineResult engineFs unlinkOk fs0).events = [] ∧
    (aiImageSearch none body restaurants now engineResult engineFs unlinkOk fs0).finalFs = fs0 :=
  ⟨rfl, rfl, rfl⟩

/-- C6: result restaurants keep the original catalog order and each kept
restaurant keeps its dishes in their original relative order (both output
projections are sublists of the corresponding catalog lists), and a
permutation of the engine match list leaves the reconciled output
unchanged, so the engine ranking order is not reflected in the output. -/
theorem c6_order_preservation :
    (∀ restaurants resp,
      List.Sublist ((aiSearch restaurants resp).map restaurantHeader)
        (restaurants.map restaurantHeader)) ∧
    (∀ restaurants resp r2, r2 ∈ aiSearch restaurants resp →
      ∃ r ∈ restaurants, restaurantHeader r2 = restaurantHeader r ∧
        List.Sublist r2.dishes r.dishes) ∧
    (∀ restaurants results results2, List.Perm results results2 →
      reconcile restaurants results = reconcile restaurants results2) := by
  refine ⟨?_, ?_, ?_⟩
  · intro restaurants resp
    have hrec : ∀ results, List.Sublist ((reconcile restaurants results).map restaurantHeader)
        (restaurants.map restaurantHeader) := by
      intro results
      unfold reconcile
      rw [List.map_map]
      have hcomp : (restaurantHeader ∘ fun r =>
          { r with dishes := r.dishes.filter fun d =>
              (matchedDishKeys results).contains (dishKey r.id d) }) =
          restaurantHeader := funext fun r => rfl
      rw [hcomp]
      exact (List.filter_sublist _).map _
    unfold aiSearch
    cases resp.data with
    | none => exact List.nil_sublist _
    | some dat =>
      dsimp only
      by_cases hs : resp.status = "success"
      · rw [if_pos hs]
        exact hrec _
      · rw [if_neg hs]
        exact List.nil_sublist _
  · intro restaurants resp r2 hr2
    rcases mem_aiSearch.mp hr2 with ⟨dat, hdat, hs, hrec⟩
    rcases mem_reconcile_iff.mp hrec with ⟨r, hmem, hkeep, rfl⟩
    exact ⟨r, hmem, rfl, List.filter_sublist _⟩
  · intro restaurants results results2 hperm
    have hids : ∀ i : Int, (matchedRestaurantIds results).contains i =
        (matchedRestaurantIds results2).contains i :=
      fun i => contains_congr_of_perm (hperm.filterMap _) i
    have hkeys : ∀ k : String, (matchedDishKeys results).contains k =
        (matchedDishKeys results2).contains k :=
      fun k => contains_congr_of_perm (hperm.map _) k
    unfold reconcile
    rw [List.filter_congr fun r _ => hids r.id]
    refine List.map_congr_left ?_
    intro r hr
    have hfil : (r.dishes.filter fun d =>
        (matchedDishKeys results).contains (dishKey r.id d)) =
        r.dishes.filter fun d => (matchedDishKeys results2).contains (dishKey r.id d) :=
      List.filter_congr fun d _ => hkeys (dishKey r.id d)
    rw [hfil]

/-- C6 witness: swapping the two matches of a concrete match list leaves
the reconciled output unchanged. -/
theorem c6_witness :
    reconcile exCat
        [{ restaurant_id := "1", dish_name := "Soup" },
         { restaurant_id := "2", dish_name := "Soup" }] =
      reconcile exCat
        [{ restaurant_id := "2", dish_name := "Soup" },
         { restaurant_id := "1", dish_name := "Soup" }] :=
  c6_order_preservation.2.2 exCat _ _ (List.Perm.swap _ _ _)

/-- C7: whenever the staged file was written and the cleanup unlink call
itself succeeds, the staged file no longer exists at its derived location
after the request, on every exit path of the engine invocation: response
returned (success status, no-match status, or missing data) or error
raised, and whatever the engine did to the file system in between. -/
theorem c7_staged_file_removed (f : UploadedFile) (body : ImageSearchDto)
    (restaurants : List Restaurant) (now : Nat)
    (engineResult : Except String AiResponse)
    (engineFs : List String → List String) (fs0 : List String) :
    ((aiImageSearch (some f) body restaurants now engineResult engineFs true fs0).finalFs).contains
      (tempPathFor now f) = false := by
  show ((aiImageSearchStaged f body restaurants now engineResult engineFs true fs0).finalFs).contains
    (tempPathFor now f) = false
  unfold aiImageSearchStaged
  dsimp only
  split
  · exact contains_filter_ne_self _ _
  · rename_i h
    simp only [Bool.not_eq_true] at h
    exact h

/-- C8 counterexample: the finally block does not guard the unlink call:
with a primary outcome of an empty success result already determined, a
failing unlink surfaces the cleanup error to the caller in place of that
result. -/
theorem c8_counterexample :
    (aiImageSearch (some exFile) exBody [] 7 (Except.ok emptyResp) id false []).outcome =
        Except.error (SearchError.cleanupFailure (tempPathFor 7 exFile)) ∧
    primaryOutcome [] (Except.ok emptyResp) = Except.ok [] ∧
    Except.error (SearchError.cleanupFailure (tempPathFor 7 exFile)) ≠
      (Except.ok [] : Except SearchError (List Restaurant)) :=
  ⟨rfl, rfl, fun h => Except.noConfusion h⟩

/-- C8 amended: a failure while removing the transient upload does replace
the primary outcome whenever the staged file still exists at cleanup time,
the caller then receiving the cleanup error instead of the engine
determined result or error; the primary outcome reaches the caller exactly
when the unlink succeeds or the file is already gone (no unlink being
attempted in the latter case). -/
theorem c8_amended_cleanup_failure_masks (f : UploadedFile) (body : ImageSearchDto)
    (restaurants : List Restaurant) (now : Nat)
    (engineResult : Except String AiResponse)
    (engineFs : List String → List String) (fs0 : List String) :
    (aiImageSearch (some f) body restaurants now engineResult engineFs true fs0).outcome =
        primaryOutcome restaurants engineResult ∧
    (aiImageSearch (some f) body restaurants now engineResult engineFs false fs0).outcome =
      (if (engineFs (tempPathFor now f :: fs0)).contains (tempPathFor now f) then
        Except.error (SearchError.cleanupFailure (tempPathFor now f))
      else primaryOutcome restaurants engineResult) := by
  refine ⟨aiImageSearch_outcome_of_unlinkOk f body restaurants now engineResult engineFs fs0, ?_⟩
  show (aiImageSearchStaged f body restaurants now engineResult engineFs false fs0).outcome = _
  unfold aiImageSearchStaged
  dsimp only
  split <;> rfl

/-- C9: when the image search request specifies no result-count limit, the
engine is invoked with limit 10, together with the injected flat records,
the defaulted query text, the staged path and the defaulted preferences. -/
theorem c9_default_limit_ten (f : UploadedFile) (body : ImageSearchDto)
    (restaurants : List Restaurant) (now : Nat)
    (engineResult : Except String AiResponse)
    (engineFs : List String → List String) (unlinkOk : Bool) (fs0 : List String) :
    Event.engineCall (dishList restaurants) (jsOrString body.text "")
        (tempPathFor now f) (jsOrString body.preferences "") 10 ∈
      (aiImageSearch (some f) { body with limit := none } restaurants now engineResult
        engineFs unlinkOk fs0).events := by
  show Event.engineCall (dishList restaurants) (jsOrString body.text "")
      (tempPathFor now f) (jsOrString body.preferences "") 10 ∈
    (aiImageSearchStaged f { body with limit := none } restaurants now engineResult
      engineFs unlinkOk fs0).events
  unfold aiImageSearchStaged
  dsimp only
  split
  · split
    · simp [jsOrInt]
    · simp [jsOrInt]
  · simp [jsOrInt]

/-- C10: whenever some match identity text parses by the leading-integer
parse to the numeric id of a catalog restaurant while no match composite
key equals any of that restaurant dish keys, that restaurant appears in
the reconciled output holding zero dishes. -/
theorem c10_matched_restaurant_empty_dishes (restaurants : List Restaurant)
    (resp : AiResponse) (dat : AiData) (r : Restaurant)
    (hr : r ∈ restaurants) (hs : resp.status = "success") (hd : resp.data = some dat)
    (hid : ∃ m ∈ dat.results, jsParseInt m.restaurant_id = some r.id)
    (hnone : ∀ m ∈ dat.results, ∀ d ∈ r.dishes, matchKey m ≠ dishKey r.id d) :
    { r with dishes := [] } ∈ aiSearch restaurants resp := by
  have hkeep : (matchedRestaurantIds dat.results).contains r.id = true :=
    List.elem_iff.mpr (mem_matchedRestaurantIds.mpr hid)
  have hfilter : (r.dishes.filter fun d =>
      (matchedDishKeys dat.results).contains (dishKey r.id d)) = [] := by
    rw [List.filter_eq_nil_iff]
    intro d hdm hcontains
    rcases mem_matchedDishKeys.mp (List.elem_iff.mp hcontains) with ⟨m, hm, hkeyEq⟩
    exact hnone m hm d hdm hkeyEq
  apply mem_aiSearch.mpr
  refine ⟨dat, hd, hs, ?_⟩
  apply mem_reconcile_iff.mpr
  exact ⟨r, hr, hkeep, by rw [hfilter]⟩

/-- C10 witness: the zero-padded match identity 01 parses to id 1 while
matching none of the dishes of restaurant 1, which therefore appears in
the output with an empty dish list. -/
theorem c10_witness :
    ({ id := 1, name := "A", dishes := [] } : Restaurant) ∈ aiSearch padCat padResp :=
  c10_matched_restaurant_empty_dishes padCat padResp { results := padResults }
    { id := 1, name := "A", dishes := [{ name := "Soup", price := 5 }] }
    (by decide) rfl rfl (by decide) (by decide)

end HackathonBack
